import Mathlib

/-
Verification of the revenue aggregation layer of the New_devs_App backend.

The development shallowly embeds the two source modules
  backend/app/services/reservations.py
  backend/app/api/v1/dashboard.py
into Lean.  Python Decimal values are modelled exactly as a pair of an
integer mantissa and a decimal scale (the number of fractional digits kept
by the textual representation), so that both the numeric value and the
printed shape of a decimal are captured.  Datetimes are modelled as minutes
on a single UTC timeline via a proleptic Gregorian day count, with the
datetime constructor bounds of CPython (years 1 to 9999) made explicit.
-/

namespace RevenueApp

/-- Exact decimal number, as Python Decimal stores it: an integer mantissa
and a nonnegative scale; the denoted value is mant / 10 ^ scale.  Two
decimals with the same value but different scales (such as 0.00 and 0.000)
print differently and are therefore structurally distinct here, matching
string equality of their Python representations. -/
structure Dec where
  mant : Int
  scale : Nat
deriving DecidableEq, Repr

/-- Rational value denoted by a decimal. -/
def Dec.toRat (d : Dec) : ℚ := (d.mant : ℚ) / (10 : ℚ) ^ d.scale

/-- Exact decimal addition: align both operands to the larger scale and add
mantissas, as Python Decimal addition does (exact at these magnitudes). -/
def Dec.add (a b : Dec) : Dec :=
  let s := max a.scale b.scale
  ⟨a.mant * (10 : Int) ^ (s - a.scale) + b.mant * (10 : Int) ^ (s - b.scale), s⟩

/-- Integer division rounding half away from zero, the ROUND_HALF_UP mode
of the Python decimal module.  Only called with a positive divisor. -/
def roundHalfUpDiv (m d : Int) : Int :=
  if 0 ≤ m then (m + d / 2) / d else -((-m + d / 2) / d)

/-- Embedding of Decimal.quantize(Decimal(0.01), rounding=ROUND_HALF_UP):
rescale to exactly two fractional digits, rounding half away from zero when
digits are dropped. -/
def Dec.quantize2 (d : Dec) : Dec :=
  if d.scale ≤ 2 then ⟨d.mant * (10 : Int) ^ (2 - d.scale), 2⟩
  else ⟨roundHalfUpDiv d.mant ((10 : Int) ^ (d.scale - 2)), 2⟩

theorem Dec.toRat_mk (m : Int) (s : Nat) :
    Dec.toRat ⟨m, s⟩ = (m : ℚ) / (10 : ℚ) ^ s := rfl

theorem pow_cast_div_aux (m : Int) (sc s : Nat) (h : sc ≤ s) :
    ((m * (10 : Int) ^ (s - sc) : Int) : ℚ) / (10 : ℚ) ^ s
      = (m : ℚ) / (10 : ℚ) ^ sc := by
  push_cast
  rw [pow_sub₀ (10 : ℚ) (by norm_num) h]
  have h10s : (10 : ℚ) ^ s ≠ 0 := pow_ne_zero _ (by norm_num)
  have h10c : (10 : ℚ) ^ sc ≠ 0 := pow_ne_zero _ (by norm_num)
  field_simp
  ring

theorem Dec.add_toRat (a b : Dec) : (a.add b).toRat = a.toRat + b.toRat := by
  unfold Dec.add Dec.toRat
  simp only
  push_cast
  rw [add_div]
  have h1 := pow_cast_div_aux a.mant a.scale (max a.scale b.scale) (le_max_left _ _)
  have h2 := pow_cast_div_aux b.mant b.scale (max a.scale b.scale) (le_max_right _ _)
  push_cast at h1 h2
  rw [h1, h2]

theorem foldl_add_toRat (l : List Dec) (init : Dec) :
    (l.foldl Dec.add init).toRat = init.toRat + (l.map Dec.toRat).sum := by
  induction l generalizing init with
  | nil => simp
  | cons h t ih =>
    simp only [List.foldl_cons, List.map_cons, List.sum_cons, ih, Dec.add_toRat]
    ring

theorem roundHalfUpDiv_mul_self (n d : Int) (hd : 0 < d) :
    roundHalfUpDiv (n * d) d = n := by
  have hhalf : (d / 2) / d = 0 :=
    Int.ediv_eq_zero_of_lt (by omega) (by omega)
  unfold roundHalfUpDiv
  by_cases hn : 0 ≤ n
  · have hm : 0 ≤ n * d := mul_nonneg hn (le_of_lt hd)
    rw [if_pos hm, add_comm, Int.add_mul_ediv_right _ _ (by omega : d ≠ 0), hhalf,
      zero_add]
  · have hm : ¬ 0 ≤ n * d := by
      push_neg at hn ⊢
      exact mul_neg_of_neg_of_pos hn hd
    rw [if_neg hm]
    have : -(n * d) = (-n) * d := by ring
    rw [this, add_comm, Int.add_mul_ediv_right _ _ (by omega : d ≠ 0), hhalf,
      zero_add, neg_neg]

/-- Failure raised on a computation path.  valueError is the generic
exception CPython datetime raises on out-of-range fields; invalidMonth is
the typed client-error rejection that section 4.2 and section 7 of the
specification mandate, included so refinement statements can compare the
two.  The source never constructs invalidMonth. -/
inductive PyErr where
  | valueError (msg : String)
  | invalidMonth
deriving DecidableEq, Repr

/-- Leap year test of the proleptic Gregorian calendar. -/
def isLeap (y : Int) : Bool :=
  (y % 4 == 0 && y % 100 != 0) || y % 400 == 0

/-- Number of days in the given month. -/
def daysInMonth (y m : Int) : Int :=
  if m = 2 then (if isLeap y then 29 else 28)
  else if m = 4 ∨ m = 6 ∨ m = 9 ∨ m = 11 then 30
  else 31

/-- Days from 1970-01-01 to the given civil date (standard era-based
conversion over the proleptic Gregorian calendar). -/
def daysFromCivil (y m d : Int) : Int :=
  let y2 := if m ≤ 2 then y - 1 else y
  let era := (if 0 ≤ y2 then y2 else y2 - 399) / 400
  let yoe := y2 - era * 400
  let mp := if 2 < m then m - 3 else m + 9
  let doy := (153 * mp + 2) / 5 + d - 1
  let doe := yoe * 365 + yoe / 4 - yoe / 100 + doy
  era * 146097 + doe - 719468

/-- UTC instant as minutes since 1970-01-01T00:00Z. -/
def civilToMinutes (y m d hh mi : Int) : Int :=
  daysFromCivil y m d * 1440 + hh * 60 + mi

/-- Embedding of datetime(year, month, day, tzinfo=timezone.utc): CPython
validates year, then month, then day, raising ValueError on the first field
out of range; on success the constructed instant is returned as minutes. -/
def datetimeUTC (y m d : Int) : Except PyErr Int :=
  if 1 ≤ y ∧ y ≤ 9999 then
    if 1 ≤ m ∧ m ≤ 12 then
      if 1 ≤ d ∧ d ≤ daysInMonth y m then
        Except.ok (civilToMinutes y m d 0 0)
      else Except.error (PyErr.valueError "day is out of range for month")
    else Except.error (PyErr.valueError "month must be in 1..12")
  else Except.error (PyErr.valueError ("year " ++ toString y ++ " is out of range"))

/-- Half-open UTC interval used to bucket reservations. -/
structure TimeBucket where
  start : Int
  stop : Int
deriving DecidableEq, Repr

/-- Month bucket exactly as calculate_monthly_revenue builds it: start_date
is datetime(year, month, 1) in UTC and end_date is datetime(year, month+1, 1)
in UTC, rolling to datetime(year+1, 1, 1) when month is 12. -/
def monthlyBucket (year month : Int) : Except PyErr TimeBucket :=
  match datetimeUTC year month 1 with
  | Except.error e => Except.error e
  | Except.ok s =>
    match (if month < 12 then datetimeUTC year (month + 1) 1
           else datetimeUTC (year + 1) 1 1) with
    | Except.error e => Except.error e
    | Except.ok e2 => Except.ok ⟨s, e2⟩

/-- Formalisation of the section 4.2 Time-Bucket Resolver contract, written
from the words of the specification for refinement comparison: start is
midnight local time of the 1st of the month converted to UTC, the end is
midnight local time of the 1st of the next month (rolling year on December)
converted to UTC, months outside 1..12 are rejected with InvalidMonth.  A
fixed-offset zone is represented by its UTC offset in minutes, so the UTC
instant of a local midnight is the local reading minus the offset. -/
def specMonthlyBucket (year month offsetMinutes : Int) : Except PyErr TimeBucket :=
  if 1 ≤ month ∧ month ≤ 12 then
    Except.ok
      ⟨civilToMinutes year month 1 0 0 - offsetMinutes,
        (if month < 12 then civilToMinutes year (month + 1) 1 0 0
         else civilToMinutes (year + 1) 1 1 0 0) - offsetMinutes⟩
  else Except.error PyErr.invalidMonth

/-- Membership of an instant in a (possibly failed) bucket computation. -/
def bucketContains (eb : Except PyErr TimeBucket) (t : Int) : Bool :=
  match eb with
  | Except.ok b => decide (b.start ≤ t ∧ t < b.stop)
  | Except.error _ => false

/-- Embedding of calculate_monthly_revenue(property_id, month, year,
db_session): builds start_date and end_date (raising ValueError out of the
datetime constructor for out-of-range fields), then — the query never being
executed — returns Decimal(0) whatever the property, session or stored
data.  The session is an arbitrary optional value, as in the source where
it defaults to None and is never read. -/
def calculate_monthly_revenue {σ : Type} (property_id : String) (month year : Int)
    (db_session : Option σ) : Except PyErr Dec :=
  match monthlyBucket year month with
  | Except.error e => Except.error e
  | Except.ok _ => Except.ok ⟨0, 0⟩

/-- Row of the reservations table, restricted to the columns the
aggregation query reads. -/
structure Reservation where
  property_id : String
  tenant_id : String
  total_amount : Dec
deriving DecidableEq, Repr

/-- Outcome of the store interaction inside the try block of
calculate_total_revenue: either the pool and session work and the query
runs over the reservations table, or some exception (pool unavailable,
timeout, any programming error) is raised on the way.  The except clause of
the source catches every exception uniformly, so a single failure case
suffices. -/
inductive StoreOutcome where
  | ok (rows : List Reservation)
  | failure
deriving DecidableEq, Repr

/-- Result dictionary of calculate_total_revenue; the keys of the Python
dict become fields.  The total key holds the decimal rendered into the
string, kept here as the exact Dec so that string equality of results is
structural equality. -/
structure RevDict where
  property_id : String
  tenant_id : String
  total : Dec
  currency : String
  count : Nat
deriving DecidableEq, Repr

/-- Rows selected by the WHERE clause of the aggregation query:
property_id = :property_id AND tenant_id = :tenant_id. -/
def matching (rows : List Reservation) (p t : String) : List Reservation :=
  rows.filter fun r => r.property_id == p && r.tenant_id == t

/-- Per-property mock table of the except branch of
calculate_total_revenue, with the default row used for lookup misses. -/
def mockData (p : String) : Dec × Nat :=
  if p = "prop-001" then (⟨2250000, 3⟩, 4)
  else if p = "prop-002" then (⟨497550, 2⟩, 4)
  else if p = "prop-003" then (⟨610050, 2⟩, 2)
  else if p = "prop-004" then (⟨177650, 2⟩, 4)
  else if p = "prop-005" then (⟨325600, 2⟩, 3)
  else (⟨0, 2⟩, 0)

/-- Embedding of calculate_total_revenue(property_id, tenant_id).  On a
working store the SQL sums total_amount and counts the rows matching both
property and tenant, grouped by property: a nonempty match yields one row
with the exact decimal sum and the count, an empty match yields no row and
the code returns the literal 0.00 with count 0.  Any exception lands in the
except branch, which answers from mockData.  Every path returns a dict. -/
def calculate_total_revenue (p t : String) (store : StoreOutcome) : RevDict :=
  match store with
  | StoreOutcome.ok rows =>
    match matching rows p t with
    | [] => ⟨p, t, ⟨0, 2⟩, "USD", 0⟩
    | r :: rs =>
      ⟨p, t, (rs.map fun x => x.total_amount).foldl Dec.add r.total_amount,
        "USD", (r :: rs).length⟩
  | StoreOutcome.failure =>
    let md := mockData p
    ⟨p, t, md.1, "USD", md.2⟩

/-- Modelled from the spec: app/services/cache.py, whose get_revenue_summary
the dashboard imports, is not under src.  Per the section 2 data flow the
cache delegates on a miss to the Revenue Query Executor and returns its
aggregate unchanged, so on a cold cache the call is a pass-through to
calculate_total_revenue. -/
def get_revenue_summary (p t : String) (store : StoreOutcome) : RevDict :=
  calculate_total_revenue p t store

/-- Tenant resolution of the dashboard endpoint, line 15 of dashboard.py:
getattr(current_user, "tenant_id", "default_tenant") or "default_tenant".
The context is modelled as an optional string attribute; a missing
attribute takes the getattr default, and the trailing `or` replaces any
falsy value — for strings, the empty string — by the default as well. -/
def tenantFor (ctx : Option String) : String :=
  match ctx with
  | none => "default_tenant"
  | some s => if s = "" then "default_tenant" else s

/-- Response dictionary of the dashboard summary endpoint; the source holds
float(total) here, this model keeps the exact rounded decimal that the
float is taken of, the single approximate conversion sitting outside the
properties under study. -/
structure DashResponse where
  property_id : String
  total_revenue : Dec
  currency : String
  reservations_count : Nat
deriving DecidableEq, Repr

/-- Embedding of get_dashboard_summary(property_id, current_user): resolve
the tenant, fetch the revenue dict, round the total to two digits with
ROUND_HALF_UP, and build the response.  The response carries no provenance
field of any kind. -/
def get_dashboard_summary (property_id : String) (ctx : Option String)
    (store : StoreOutcome) : DashResponse :=
  let tenant_id := tenantFor ctx
  let d := get_revenue_summary property_id tenant_id store
  ⟨d.property_id, d.total.quantize2, d.currency, d.count⟩

instance {ε α : Type} [DecidableEq ε] [DecidableEq α] : DecidableEq (Except ε α) := fun a b =>
  match a, b with
  | Except.ok x, Except.ok y =>
    if h : x = y then isTrue (by rw [h]) else isFalse (fun hc => h (Except.ok.inj hc))
  | Except.error x, Except.error y =>
    if h : x = y then isTrue (by rw [h]) else isFalse (fun hc => h (Except.error.inj hc))
  | Except.ok _, Except.error _ => isFalse (fun hc => Except.noConfusion hc)
  | Except.error _, Except.ok _ => isFalse (fun hc => Except.noConfusion hc)

/-- UTC instant of a reservation checking in at 23:59 local time on
2024-03-31 in a fixed UTC-05:00 zone: the local reading plus 300 minutes,
which is 2024-04-01T04:59Z. -/
def lateMarchInstant : Int := civilToMinutes 2024 3 31 23 59 + 300

/-- Claim C1: the spec requires month buckets bounded by property-local
midnights converted to UTC; the code builds them at midnight UTC
(datetime(year, month, 1, tzinfo=timezone.utc)).  The two agree only at
offset zero, and a reservation at 23:59 local on the last day of March in a
UTC-05:00 zone lands in the April bucket of the code while the bucket the
spec mandates keeps it in March. -/
theorem monthlyBucket_misclassifies_boundary :
    monthlyBucket 2024 3 = specMonthlyBucket 2024 3 0
    ∧ monthlyBucket 2024 3 ≠ specMonthlyBucket 2024 3 (-300)
    ∧ bucketContains (monthlyBucket 2024 3) lateMarchInstant = false
    ∧ bucketContains (monthlyBucket 2024 4) lateMarchInstant = true
    ∧ bucketContains (specMonthlyBucket 2024 3 (-300)) lateMarchInstant = true := by
  refine ⟨rfl, by decide, rfl, rfl, rfl⟩

/-- Four live rows for prop-002 and tenant t1 whose exact decimal sum is
4975.50, the value of the mock table for prop-002. -/
def liveRows002 : List Reservation :=
  [⟨"prop-002", "t1", ⟨100000, 2⟩⟩, ⟨"prop-002", "t1", ⟨100000, 2⟩⟩,
   ⟨"prop-002", "t1", ⟨100000, 2⟩⟩, ⟨"prop-002", "t1", ⟨197550, 2⟩⟩]

/-- Claim C2: the spec requires a store failure to yield an aggregate
marked FALLBACK whose response says provenance fallback, never live.  The
code carries no provenance anywhere: the dict and the response produced
when the store raises are equal, field for field, to the ones produced by a
live store whose rows sum to the same figures, so a fallback result is
indistinguishable from a live one. -/
theorem fallback_indistinguishable_from_live :
    calculate_total_revenue "prop-002" "t1" StoreOutcome.failure
        = calculate_total_revenue "prop-002" "t1" (StoreOutcome.ok liveRows002)
    ∧ get_dashboard_summary "prop-002" (some "t1") StoreOutcome.failure
        = get_dashboard_summary "prop-002" (some "t1") (StoreOutcome.ok liveRows002) :=
  ⟨by decide, by decide⟩

/-- Claim C4: a zero-row success does return total 0.00 and count 0, but
the spec additionally requires it to be marked LIVE and distinguishable
from a query failure; the code returns, for a property outside the mock
table, the very same dict on a store failure, so the two outcomes are
identical. -/
theorem zero_rows_equals_store_failure :
    calculate_total_revenue "prop-999" "t1" (StoreOutcome.ok [])
        = ⟨"prop-999", "t1", ⟨0, 2⟩, "USD", 0⟩
    ∧ calculate_total_revenue "prop-999" "t1" (StoreOutcome.ok [])
        = calculate_total_revenue "prop-999" "t1" StoreOutcome.failure :=
  ⟨by decide, by decide⟩

/-- Claim C6, counterexample: at month 13 the code raises the generic
ValueError of the datetime constructor, not the typed InvalidMonth client
error the claim describes. -/
theorem month13_not_invalidMonth :
    calculate_monthly_revenue "prop-001" 13 2024 (none : Option Unit)
        = Except.error (PyErr.valueError "month must be in 1..12")
    ∧ calculate_monthly_revenue "prop-001" 13 2024 (none : Option Unit)
        ≠ Except.error PyErr.invalidMonth :=
  ⟨by decide, by decide⟩

/-- Claim C8, counterexample: the claim quantifies over every year, but at
month 12 of year 9999 the end-of-bucket datetime constructor overflows the
supported year range and the function raises instead of returning
Decimal(0). -/
theorem month12_year9999_raises :
    calculate_monthly_revenue "prop-001" 12 9999 (none : Option Unit)
        = Except.error (PyErr.valueError "year 10000 is out of range")
    ∧ calculate_monthly_revenue "prop-001" 12 9999 (none : Option Unit)
        ≠ Except.ok ⟨0, 0⟩ :=
  ⟨by decide, by decide⟩

/-- Claim C10: on a store failure each of prop-001 .. prop-005 receives its
fixed mock total and count, and every other property receives total 0.00
with count 0, a dict equal to the one a successful zero-row query
produces. -/
theorem fallback_mock_values :
    (∀ t : String,
      calculate_total_revenue "prop-001" t StoreOutcome.failure
          = ⟨"prop-001", t, ⟨2250000, 3⟩, "USD", 4⟩
      ∧ calculate_total_revenue "prop-002" t StoreOutcome.failure
          = ⟨"prop-002", t, ⟨497550, 2⟩, "USD", 4⟩
      ∧ calculate_total_revenue "prop-003" t StoreOutcome.failure
          = ⟨"prop-003", t, ⟨610050, 2⟩, "USD", 2⟩
      ∧ calculate_total_revenue "prop-004" t StoreOutcome.failure
          = ⟨"prop-004", t, ⟨177650, 2⟩, "USD", 4⟩
      ∧ calculate_total_revenue "prop-005" t StoreOutcome.failure
          = ⟨"prop-005", t, ⟨325600, 2⟩, "USD", 3⟩)
    ∧ ∀ (p t : String), p ≠ "prop-001" → p ≠ "prop-002" → p ≠ "prop-003" →
        p ≠ "prop-004" → p ≠ "prop-005" →
        calculate_total_revenue p t StoreOutcome.failure = ⟨p, t, ⟨0, 2⟩, "USD", 0⟩
        ∧ calculate_total_revenue p t StoreOutcome.failure
            = calculate_total_revenue p t (StoreOutcome.ok []) := by
  constructor
  · intro t
    exact ⟨rfl, rfl, rfl, rfl, rfl⟩
  · intro p t h1 h2 h3 h4 h5
    unfold calculate_total_revenue mockData
    rw [if_neg h1, if_neg h2, if_neg h3, if_neg h4, if_neg h5]
    exact ⟨rfl, rfl⟩

/-- Witness for claim C10 at a property outside the mock table. -/
theorem fallback_mock_values_witness :
    calculate_total_revenue "prop-042" "t9" StoreOutcome.failure
        = ⟨"prop-042", "t9", ⟨0, 2⟩, "USD", 0⟩
    ∧ calculate_total_revenue "prop-042" "t9" StoreOutcome.failure
        = calculate_total_revenue "prop-042" "t9" (StoreOutcome.ok []) :=
  fallback_mock_values.2 "prop-042" "t9" (by decide) (by decide) (by decide)
    (by decide) (by decide)

/-- Claim C3: on a live store the returned total is the exact decimal sum
of the amounts of exactly the rows matching both the property and the
tenant, the count is their number, and appending rows of a different
tenant — even on the same property — changes nothing. -/
theorem total_is_sum_of_matching (p t : String) (rows extra : List Reservation)
    (hx : ∀ r ∈ extra, r.tenant_id ≠ t) :
    ((calculate_total_revenue p t (StoreOutcome.ok rows)).total.toRat
        = ((matching rows p t).map fun r => r.total_amount.toRat).sum
      ∧ (calculate_total_revenue p t (StoreOutcome.ok rows)).count
        = (matching rows p t).length)
    ∧ calculate_total_revenue p t (StoreOutcome.ok (rows ++ extra))
        = calculate_total_revenue p t (StoreOutcome.ok rows) := by
  have hfil : matching (rows ++ extra) p t = matching rows p t := by
    unfold matching
    rw [List.filter_append]
    have hnil : extra.filter (fun r => r.property_id == p && r.tenant_id == t) = [] := by
      rw [List.filter_eq_nil_iff]
      intro a ha
      simp only [Bool.and_eq_true, beq_iff_eq, not_and]
      intro _ hta
      exact hx a ha hta
    rw [hnil, List.append_nil]
  constructor
  · cases hm : matching rows p t with
    | nil =>
      simp [calculate_total_revenue, hm, Dec.toRat]
    | cons r rs =>
      constructor
      · simp only [calculate_total_revenue, hm]
        rw [foldl_add_toRat]
        simp [List.map_map, Function.comp_def]
      · simp [calculate_total_revenue, hm]
  · simp only [calculate_total_revenue, hfil]

/-- Witness for claim C3: one matching row, one row of a foreign tenant on
the same property. -/
theorem total_is_sum_of_matching_witness :
    ((calculate_total_revenue "prop-001" "t1"
          (StoreOutcome.ok [⟨"prop-001", "t1", ⟨100, 2⟩⟩])).total.toRat
        = ((matching [⟨"prop-001", "t1", ⟨100, 2⟩⟩] "prop-001" "t1").map
            fun r => r.total_amount.toRat).sum
      ∧ (calculate_total_revenue "prop-001" "t1"
          (StoreOutcome.ok [⟨"prop-001", "t1", ⟨100, 2⟩⟩])).count
        = (matching [⟨"prop-001", "t1", ⟨100, 2⟩⟩] "prop-001" "t1").length)
    ∧ calculate_total_revenue "prop-001" "t1"
        (StoreOutcome.ok ([⟨"prop-001", "t1", ⟨100, 2⟩⟩] ++ [⟨"prop-001", "t2", ⟨999, 2⟩⟩]))
      = calculate_total_revenue "prop-001" "t1"
          (StoreOutcome.ok [⟨"prop-001", "t1", ⟨100, 2⟩⟩]) :=
  total_is_sum_of_matching "prop-001" "t1" _ _ (by decide)

/-- Claim C5: the boundary rounding is quantize at two fractional digits
with ROUND_HALF_UP; it fixes every value already expressible over
denominator 100, sends 2250.005 to 2250.01 and 2250.004 to 2250.00, and is
exactly the operation the dashboard applies to the total before building
the response. -/
theorem quantize2_round_half_up :
    (∀ d : Dec, (∃ n : Int, d.toRat = (n : ℚ) / 100) → (d.quantize2).toRat = d.toRat)
    ∧ Dec.quantize2 ⟨2250005, 3⟩ = ⟨225001, 2⟩
    ∧ Dec.quantize2 ⟨2250004, 3⟩ = ⟨225000, 2⟩
    ∧ ∀ (p : String) (c : Option String) (st : StoreOutcome),
        (get_dashboard_summary p c st).total_revenue
          = (get_revenue_summary p (tenantFor c) st).total.quantize2 := by
  refine ⟨?_, by decide, by decide, fun p c st => rfl⟩
  rintro ⟨m, sc⟩ ⟨n, hn⟩
  by_cases hsc : sc ≤ 2
  · unfold Dec.quantize2
    rw [if_pos hsc]
    exact pow_cast_div_aux m sc 2 hsc
  · push_neg at hsc
    have hn2 : (m : ℚ) / (10 : ℚ) ^ sc = (n : ℚ) / 100 := hn
    have h100 : (m : ℚ) * 100 = (n : ℚ) * (10 : ℚ) ^ sc := by
      field_simp at hn2
      linarith
    have hsplit : (10 : ℚ) ^ sc = (10 : ℚ) ^ (sc - 2) * 100 := by
      rw [(by omega : sc = (sc - 2) + 2), pow_add]
      norm_num
    have hq : (m : ℚ) = (n : ℚ) * (10 : ℚ) ^ (sc - 2) := by
      refine mul_right_cancel₀ (b := (100 : ℚ)) (by norm_num) ?_
      rw [h100, hsplit]
      ring
    have hZ : m = n * (10 : Int) ^ (sc - 2) := by exact_mod_cast hq
    have hflip : ¬ sc ≤ 2 := by omega
    unfold Dec.quantize2
    rw [if_neg hflip]
    conv_lhs => rw [hZ]
    rw [roundHalfUpDiv_mul_self n _ (by positivity), hn]
    unfold Dec.toRat
    norm_num

/-- Witness for claim C5: an already-two-decimal value is fixed by the
boundary rounding. -/
theorem quantize2_round_half_up_witness :
    (Dec.quantize2 ⟨12345, 2⟩).toRat = Dec.toRat ⟨12345, 2⟩ :=
  quantize2_round_half_up.1 ⟨12345, 2⟩ ⟨12345, by norm_num [Dec.toRat]⟩

/-- Claim C7: a context without a tenant_id attribute, or with an empty
one, resolves to default_tenant and the endpoint answers as if that tenant
had been supplied; a nonempty tenant_id is used as given. -/
theorem tenant_default_resolution :
    tenantFor none = "default_tenant"
    ∧ tenantFor (some "") = "default_tenant"
    ∧ (∀ s : String, s ≠ "" → tenantFor (some s) = s)
    ∧ ∀ (p : String) (st : StoreOutcome),
        get_dashboard_summary p none st = get_dashboard_summary p (some "default_tenant") st
        ∧ get_dashboard_summary p (some "") st
            = get_dashboard_summary p (some "default_tenant") st := by
  refine ⟨rfl, rfl, ?_, fun p st => ⟨rfl, rfl⟩⟩
  intro s hs
  simp only [tenantFor]
  rw [if_neg hs]

/-- Witness for claim C7 with a nonempty tenant. -/
theorem tenant_default_resolution_witness : tenantFor (some "t1") = "t1" :=
  tenant_default_resolution.2.2.1 "t1" (by decide)

theorem one_le_daysInMonth (y m : Int) : 1 ≤ daysInMonth y m := by
  unfold daysInMonth
  split_ifs <;> norm_num

/-- Claim C6, amended: for a year inside the supported range 1..9999, any
month outside 1..12 makes the first datetime constructor raise the generic
ValueError about the month; the exception is not the typed InvalidMonth
client error of the specification and nothing in the code converts it to a
client error. -/
theorem calculate_monthly_revenue_rejects_bad_month {σ : Type} (p : String)
    (s : Option σ) (month year : Int) (hy1 : 1 ≤ year) (hy2 : year ≤ 9999)
    (hm : month < 1 ∨ 12 < month) :
    calculate_monthly_revenue p month year s
      = Except.error (PyErr.valueError "month must be in 1..12") := by
  have hmc : ¬(1 ≤ month ∧ month ≤ 12) := by omega
  unfold calculate_monthly_revenue monthlyBucket datetimeUTC
  rw [if_pos ⟨hy1, hy2⟩, if_neg hmc]

/-- Witness for claim C6 at month 13. -/
theorem calculate_monthly_revenue_rejects_bad_month_witness :
    calculate_monthly_revenue "prop-007" 13 2024 (some "session")
      = Except.error (PyErr.valueError "month must be in 1..12") :=
  calculate_monthly_revenue_rejects_bad_month "prop-007" (some "session") 13 2024
    (by norm_num) (by norm_num) (Or.inr (by norm_num))

/-- Claim C8, amended: for every month in 1..12 and every year the datetime
constructors accept (1..9999, excluding December 9999 whose bucket end
overflows), calculate_monthly_revenue returns the constant Decimal(0); the
constructed query is never executed, so the result is the same for every
property and every session. -/
theorem calculate_monthly_revenue_constant_zero {σ σ2 : Type} (p p2 : String)
    (s : Option σ) (s2 : Option σ2) (month year : Int) (h1 : 1 ≤ month)
    (h2 : month ≤ 12) (h3 : 1 ≤ year) (h4 : year ≤ 9999)
    (h5 : ¬(month = 12 ∧ year = 9999)) :
    calculate_monthly_revenue p month year s = Except.ok ⟨0, 0⟩
    ∧ calculate_monthly_revenue p month year s
        = calculate_monthly_revenue p2 month year s2 := by
  have hs : datetimeUTC year month 1 = Except.ok (civilToMinutes year month 1 0 0) := by
    unfold datetimeUTC
    rw [if_pos ⟨h3, h4⟩, if_pos ⟨h1, h2⟩,
      if_pos ⟨le_refl 1, one_le_daysInMonth year month⟩]
  have hend : (if month < 12 then datetimeUTC year (month + 1) 1
        else datetimeUTC (year + 1) 1 1)
      = Except.ok (if month < 12 then civilToMinutes year (month + 1) 1 0 0
        else civilToMinutes (year + 1) 1 1 0 0) := by
    by_cases hm : month < 12
    · rw [if_pos hm, if_pos hm]
      unfold datetimeUTC
      rw [if_pos ⟨h3, h4⟩, if_pos ⟨by omega, by omega⟩,
        if_pos ⟨le_refl 1, one_le_daysInMonth year (month + 1)⟩]
    · rw [if_neg hm, if_neg hm]
      unfold datetimeUTC
      rw [if_pos ⟨by omega, by omega⟩, if_pos ⟨by omega, by omega⟩,
        if_pos ⟨le_refl 1, one_le_daysInMonth (year + 1) 1⟩]
  have key : ∀ {τ : Type} (q : String) (u : Option τ),
      calculate_monthly_revenue q month year u = Except.ok ⟨0, 0⟩ := by
    intro τ q u
    unfold calculate_monthly_revenue monthlyBucket
    rw [hs, hend]
  exact ⟨key p s, (key p s).trans (key p2 s2).symm⟩

/-- Witness for claim C8: May 2024 with two different properties and
sessions. -/
theorem calculate_monthly_revenue_constant_zero_witness :
    calculate_monthly_revenue "prop-001" 5 2024 (none : Option Unit) = Except.ok ⟨0, 0⟩
    ∧ calculate_monthly_revenue "prop-001" 5 2024 (none : Option Unit)
        = calculate_monthly_revenue "prop-777" 5 2024 (some "session") :=
  calculate_monthly_revenue_constant_zero "prop-001" "prop-777" (none : Option Unit)
    (some "session") 5 2024 (by norm_num) (by norm_num) (by norm_num) (by norm_num)
    (by omega)

/-- Claim C9: calculate_total_revenue is a total function of its inputs:
whatever the store outcome — rows, no rows, or any raised exception — it
returns a dict carrying the requested property and tenant, the fixed
currency USD, and total and count fields. -/
theorem calculate_total_revenue_is_total (p t : String) (store : StoreOutcome) :
    (calculate_total_revenue p t store).property_id = p
    ∧ (calculate_total_revenue p t store).tenant_id = t
    ∧ (calculate_total_revenue p t store).currency = "USD" := by
  cases store with
  | ok rows =>
    cases hm : matching rows p t <;> simp [calculate_total_revenue, hm]
  | failure => simp [calculate_total_revenue]

end RevenueApp





